import Mathlib

/-
Verification of the control layer of the CSC419 smart-home repository
(src/control.py): the ACController and LightController finite state
machines and the RoomController aggregator, embedded shallowly.

Modelling conventions:
- The Python string-valued states "OFF"/"STANDBY"/"COOLING" and "OFF"/"ON"
  become the enumerations ACState and LightState.
- Each `update_state` method mutates `self.state` and returns it; it is
  embedded as a pure transition function (stored state, inputs) ↦ new
  state, the returned and the newly stored state being the same value.
- Python floats appear only in comparisons against the exact constants
  28, 24 and 300, never in arithmetic, so temperatures and light levels
  are modelled as rationals; every float value a caller could pass is a
  rational and the comparisons agree.
- The `sensor_data : Dict[str, Any]` argument of RoomController.update is
  read only at the keys `sensor_type`, `value` and `occupied`; it is
  modelled by a structure with one optional field per key (`none` = key
  absent).  `sensor_data.get(k)` is the field itself; the raising access
  `sensor_data[k]` is the field when present and a KeyError otherwise,
  so `update` returns `Except String RoomController`.  A Python KeyError
  fires while the right-hand side of the assignment is evaluated, before
  any field of the controller is written, so on error the controller is
  unchanged; `updatePost` is the controller as it stands after the call,
  successful or not.
-/

namespace SmartHome

/-- States of the air-conditioning FSM of `ACController` in control.py
(the Python strings "OFF", "STANDBY", "COOLING"). -/
inductive ACState
  | OFF
  | STANDBY
  | COOLING
deriving DecidableEq, Repr

/-- States of the lighting FSM of `LightController` in control.py
(the Python strings "OFF", "ON"). -/
inductive LightState
  | OFF
  | ON
deriving DecidableEq, Repr

/-- Transition function of `ACController.update_state` (control.py
lines 24-37).  `s` is the stored `self.state` before the call; the result
is both stored back and returned. -/
def ACController.update_state (s : ACState) (occupied : Bool) (temp : ℚ) : ACState :=
  if !occupied then
    ACState.OFF
  else
    match s with
    | ACState.OFF => if temp ≥ 28 then ACState.COOLING else ACState.STANDBY
    | ACState.STANDBY => if temp ≥ 28 then ACState.COOLING else ACState.STANDBY
    | ACState.COOLING => if temp < 24 then ACState.STANDBY else ACState.COOLING

/-- Transition function of `LightController.update_state` (control.py
lines 48-54).  The stored state `s` is overwritten without being read:
the body never mentions it. -/
def LightController.update_state (s : LightState) (occupied : Bool)
    (light_level : ℚ) : LightState :=
  if occupied = true ∧ light_level < 300 then LightState.ON else LightState.OFF

/-- Shallow model of the `sensor_data` dictionaries consumed by
`RoomController.update`: the code reads at most the keys `sensor_type`,
`value` and `occupied`, each modelled as an optional field (`none` means
the key is absent from the dictionary). -/
structure SensorData where
  sensor_type : Option String := none
  value : Option ℚ := none
  occupied : Option Bool := none
deriving DecidableEq, Repr

/-- State of a `RoomController` object (control.py lines 61-71): the room
name, the stored states of its two FSM objects `self.ac` and
`self.lights`, the three cached sensor values, and the two inert manual
override slots (initialised to None and never read by any code). -/
structure RoomController where
  room_name : String
  ac : ACState
  lights : LightState
  current_temp : ℚ
  is_occupied : Bool
  current_light_level : ℚ
  manual_ac_override : Option ACState
  manual_light_override : Option LightState
deriving DecidableEq, Repr

/-- `RoomController.__init__` (control.py lines 61-71): fresh FSMs in OFF
and the cached defaults temp=20.0, occupied=False, light=500. -/
def RoomController.init (room_name : String) : RoomController :=
  { room_name := room_name
    ac := ACState.OFF
    lights := LightState.OFF
    current_temp := 20
    is_occupied := false
    current_light_level := 500
    manual_ac_override := none
    manual_light_override := none }

/-- Python KeyError message for the missing key `value`. -/
def keyErrorValue : String := "KeyError: value"

/-- Python KeyError message for the missing key `occupied`. -/
def keyErrorOccupied : String := "KeyError: occupied"

/-- `RoomController.update` (control.py lines 73-86).
`stype = sensor_data.get(sensor_type)` defaults to None when the key is
absent; the if/elif chain compares it against the three recognised tags
and falls through silently otherwise; inside a matched branch the raising
access `sensor_data[value]` (resp. `sensor_data[occupied]`) raises a
KeyError when that key is absent, before anything is assigned. -/
def RoomController.update (rc : RoomController) (d : SensorData) :
    Except String RoomController :=
  let stype := d.sensor_type
  if stype = some "temperature" then
    match d.value with
    | some v => Except.ok { rc with current_temp := v }
    | none => Except.error keyErrorValue
  else if stype = some "pir" then
    match d.occupied with
    | some b => Except.ok { rc with is_occupied := b }
    | none => Except.error keyErrorOccupied
  else if stype = some "ldr" then
    match d.value with
    | some v => Except.ok { rc with current_light_level := v }
    | none => Except.error keyErrorValue
  else
    Except.ok rc

/-- The controller object as it stands after a call of `update`: the
mutated controller on success, and the controller unchanged when the call
raised, since in Python the KeyError fires while the right-hand side of
the assignment is evaluated, before any attribute is written. -/
def RoomController.updatePost (rc : RoomController) (d : SensorData) :
    RoomController :=
  match rc.update d with
  | Except.ok rc' => rc'
  | Except.error _ => rc

/-- Modelled from the spec: the evaluation step is driven by the demo
driver in sensors.py, which is not under src/.  Per spec section 4.3 it
calls `ac.update_state(self.is_occupied, self.current_temp)` and
`lights.update_state(self.is_occupied, self.current_light_level)` on the
cached values; each call stores the new state in the FSM object and
returns it, and the pair of new states is reported. -/
def RoomController.evaluate (rc : RoomController) :
    RoomController × ACState × LightState :=
  let acS := ACController.update_state rc.ac rc.is_occupied rc.current_temp
  let lS := LightController.update_state rc.lights rc.is_occupied rc.current_light_level
  ({ rc with ac := acS, lights := lS }, acS, lS)

/-- One input to `ACController.update_state`: the occupancy flag and the
temperature of a single call. -/
structure ACCall where
  occupied : Bool
  temp : ℚ
deriving DecidableEq, Repr

/-- One call of `ACController.update_state` on a stored state. -/
def ACStep (s : ACState) (c : ACCall) : ACState :=
  ACController.update_state s c.occupied c.temp

/-- Stored state of an `ACController` after a finite sequence of
`update_state` calls, starting from the initial state OFF set by
`__init__`. -/
def runAC (calls : List ACCall) : ACState :=
  calls.foldl ACStep ACState.OFF

/-- Helper: a single `update_state` call can only produce COOLING when its
occupancy input is true (an unoccupied call returns OFF regardless of the
stored state). -/
theorem ACStep_cooling_occupied (s : ACState) (c : ACCall)
    (h : ACStep s c = ACState.COOLING) : c.occupied = true := by
  cases hb : c.occupied with
  | false => simp [ACStep, ACController.update_state, hb] at h
  | true => rfl

/-- Helper: from stored state COOLING, a sequence of calls each of which
has occupied=true and temperature at least 24 leaves the state COOLING. -/
theorem foldl_cooling_stays (more : List ACCall)
    (h : ∀ c ∈ more, c.occupied = true ∧ 24 ≤ c.temp) :
    more.foldl ACStep ACState.COOLING = ACState.COOLING := by
  induction more with
  | nil => rfl
  | cons c cs ih =>
    have hc := h c (List.mem_cons_self c cs)
    have hstep : ACStep ACState.COOLING c = ACState.COOLING := by
      simp [ACStep, ACController.update_state, hc.1, not_lt.mpr hc.2]
    rw [List.foldl_cons, hstep]
    exact ih fun x hx => h x (List.mem_cons_of_mem _ hx)

/-- C1: from stored state COOLING with occupied=true,
`ACController.update_state` returns (and stores) STANDBY when the
temperature is strictly below 24, and stays COOLING for every
temperature ≥ 24 (so in particular throughout [24, 28)). -/
theorem ac_cooling_hysteresis (temp : ℚ) :
    (temp < 24 →
      ACController.update_state ACState.COOLING true temp = ACState.STANDBY) ∧
    (24 ≤ temp →
      ACController.update_state ACState.COOLING true temp = ACState.COOLING) := by
  refine ⟨fun h => ?_, fun h => ?_⟩
  · simp [ACController.update_state, h]
  · simp [ACController.update_state, not_lt.mpr h]

/-- Witness for C1 at the concrete temperatures 23 and 25. -/
theorem ac_cooling_hysteresis_check :
    ACController.update_state ACState.COOLING true 23 = ACState.STANDBY ∧
    ACController.update_state ACState.COOLING true 25 = ACState.COOLING :=
  ⟨(ac_cooling_hysteresis 23).1 (by norm_num),
   (ac_cooling_hysteresis 25).2 (by norm_num)⟩

/-- C2: for every stored state and every temperature, a call of
`ACController.update_state` with occupied=false returns (and stores)
OFF. -/
theorem ac_unoccupied_off (s : ACState) (temp : ℚ) :
    ACController.update_state s false temp = ACState.OFF := by
  simp [ACController.update_state]

/-- C3: (a) starting from the initial state OFF, after any finite sequence
of `update_state` calls the stored state is COOLING only if the most
recent call had occupied=true; (b) once the state is COOLING it stays
COOLING under every subsequent call until a call arrives with
temperature < 24 or occupied=false, i.e. it stays COOLING through any
sequence of calls each having occupied=true and temperature ≥ 24. -/
theorem ac_cooling_reachability :
    (∀ calls : List ACCall, runAC calls = ACState.COOLING →
      ∃ c, calls.getLast? = some c ∧ c.occupied = true) ∧
    (∀ more : List ACCall, (∀ c ∈ more, c.occupied = true ∧ 24 ≤ c.temp) →
      more.foldl ACStep ACState.COOLING = ACState.COOLING) := by
  refine ⟨fun calls h => ?_, foldl_cooling_stays⟩
  rcases List.eq_nil_or_concat calls with rfl | ⟨rest, c, rfl⟩
  · simp [runAC] at h
  · refine ⟨c, by simp, ?_⟩
    have hstep : ACStep (runAC rest) c = ACState.COOLING := by
      simpa [runAC, List.foldl_append] using h
    exact ACStep_cooling_occupied _ _ hstep

/-- Witness for C3 at a concrete trace (one occupied call at 30 degrees)
and a concrete continuation ([25, 24] while occupied). -/
theorem ac_cooling_reachability_check :
    (∃ c, (([⟨true, 30⟩] : List ACCall)).getLast? = some c ∧ c.occupied = true) ∧
    ([⟨true, 25⟩, ⟨true, 24⟩] : List ACCall).foldl ACStep ACState.COOLING =
      ACState.COOLING :=
  ⟨ac_cooling_reachability.1 [⟨true, 30⟩] (by decide),
   ac_cooling_reachability.2 [⟨true, 25⟩, ⟨true, 24⟩] (by decide)⟩

/-- C4: from stored state OFF with occupied=true,
`ACController.update_state` returns COOLING when the temperature is ≥ 28
(inclusive bound) and STANDBY otherwise. -/
theorem ac_off_transition (temp : ℚ) :
    (28 ≤ temp →
      ACController.update_state ACState.OFF true temp = ACState.COOLING) ∧
    (temp < 28 →
      ACController.update_state ACState.OFF true temp = ACState.STANDBY) := by
  refine ⟨fun h => ?_, fun h => ?_⟩
  · simp [ACController.update_state, h]
  · simp [ACController.update_state, not_le.mpr h]

/-- Witness for C4 at the concrete temperatures 28 and 20. -/
theorem ac_off_transition_check :
    ACController.update_state ACState.OFF true 28 = ACState.COOLING ∧
    ACController.update_state ACState.OFF true 20 = ACState.STANDBY :=
  ⟨(ac_off_transition 28).1 (by norm_num),
   (ac_off_transition 20).2 (by norm_num)⟩

/-- C5: from stored state STANDBY with occupied=true,
`ACController.update_state` returns COOLING when the temperature is ≥ 28
and remains STANDBY for every temperature < 28. -/
theorem ac_standby_transition (temp : ℚ) :
    (28 ≤ temp →
      ACController.update_state ACState.STANDBY true temp = ACState.COOLING) ∧
    (temp < 28 →
      ACController.update_state ACState.STANDBY true temp = ACState.STANDBY) := by
  refine ⟨fun h => ?_, fun h => ?_⟩
  · simp [ACController.update_state, h]
  · simp [ACController.update_state, not_le.mpr h]

/-- Witness for C5 at the concrete temperatures 28 and 27. -/
theorem ac_standby_transition_check :
    ACController.update_state ACState.STANDBY true 28 = ACState.COOLING ∧
    ACController.update_state ACState.STANDBY true 27 = ACState.STANDBY :=
  ⟨(ac_standby_transition 28).1 (by norm_num),
   (ac_standby_transition 27).2 (by norm_num)⟩

/-- C6: for every prior stored state and inputs,
`LightController.update_state` returns ON iff occupied is true and the
light level is strictly below 300, returns OFF otherwise, and the result
does not depend on the prior stored state. -/
theorem light_rule (s : LightState) (occupied : Bool) (light_level : ℚ) :
    (LightController.update_state s occupied light_level = LightState.ON ↔
      occupied = true ∧ light_level < 300) ∧
    (occupied = false ∨ 300 ≤ light_level →
      LightController.update_state s occupied light_level = LightState.OFF) ∧
    (∀ s' : LightState, LightController.update_state s occupied light_level =
      LightController.update_state s' occupied light_level) := by
  refine ⟨?_, ?_, fun s' => rfl⟩
  · by_cases h : occupied = true ∧ light_level < 300
    · simp [LightController.update_state, h]
    · simp [LightController.update_state, h]
  · intro h
    have hc : ¬(occupied = true ∧ light_level < 300) := by
      rcases h with h | h
      · rintro ⟨h1, -⟩
        rw [h] at h1
        exact Bool.false_ne_true h1
      · rintro ⟨-, h2⟩
        exact absurd h2 (not_lt.mpr h)
    simp [LightController.update_state, hc]

/-- Witness for C6 at the boundary inputs: occupied with level 299 gives
ON, occupied with level 300 gives OFF, and the state argument is
irrelevant at a concrete pair of states. -/
theorem light_rule_check :
    LightController.update_state LightState.OFF true 299 = LightState.ON ∧
    LightController.update_state LightState.OFF true 300 = LightState.OFF ∧
    LightController.update_state LightState.OFF true 100 =
      LightController.update_state LightState.ON true 100 :=
  ⟨(light_rule LightState.OFF true 299).1.mpr ⟨rfl, by norm_num⟩,
   (light_rule LightState.OFF true 300).2.1 (Or.inr (by norm_num)),
   (light_rule LightState.OFF true 100).2.2 LightState.ON⟩

/-- C7: `RoomController.update` with a recognised tag whose value field is
present overwrites exactly the corresponding cached value (the record
update `\x7b rc with f := v \x7d` leaves every other field of the
controller, the room name and both FSM states included, unchanged), and
an unrecognised tag leaves the controller unchanged and raises no
error. -/
theorem room_update_frame (rc : RoomController) (d : SensorData) :
    (∀ v : ℚ, d.sensor_type = some "temperature" → d.value = some v →
      rc.update d = Except.ok { rc with current_temp := v }) ∧
    (∀ b : Bool, d.sensor_type = some "pir" → d.occupied = some b →
      rc.update d = Except.ok { rc with is_occupied := b }) ∧
    (∀ v : ℚ, d.sensor_type = some "ldr" → d.value = some v →
      rc.update d = Except.ok { rc with current_light_level := v }) ∧
    (∀ t : String, d.sensor_type = some t → t ≠ "temperature" → t ≠ "pir" →
      t ≠ "ldr" → rc.update d = Except.ok rc) := by
  refine ⟨fun v h1 h2 => ?_, fun b h1 h2 => ?_, fun v h1 h2 => ?_,
    fun t h1 ht1 ht2 ht3 => ?_⟩
  · simp [RoomController.update, h1, h2]
  · simp [RoomController.update, h1, h2]
  · simp [RoomController.update, h1, h2]
  · simp [RoomController.update, h1, ht1, ht2, ht3]

/-- Witness for C7 on a concrete controller: each recognised tag rewrites
exactly its cached field, and the unrecognised tag "humidity" is a
silent no-op. -/
theorem room_update_frame_check :
    (RoomController.init "R").update
        { sensor_type := some "temperature", value := some 25 } =
      Except.ok { RoomController.init "R" with current_temp := 25 } ∧
    (RoomController.init "R").update
        { sensor_type := some "pir", occupied := some true } =
      Except.ok { RoomController.init "R" with is_occupied := true } ∧
    (RoomController.init "R").update
        { sensor_type := some "ldr", value := some 42 } =
      Except.ok { RoomController.init "R" with current_light_level := 42 } ∧
    (RoomController.init "R").update { sensor_type := some "humidity" } =
      Except.ok (RoomController.init "R") :=
  ⟨(room_update_frame (RoomController.init "R")
      { sensor_type := some "temperature", value := some 25 }).1 25 rfl rfl,
   (room_update_frame (RoomController.init "R")
      { sensor_type := some "pir", occupied := some true }).2.1 true rfl rfl,
   (room_update_frame (RoomController.init "R")
      { sensor_type := some "ldr", value := some 42 }).2.2.1 42 rfl rfl,
   (room_update_frame (RoomController.init "R")
      { sensor_type := some "humidity" }).2.2.2 "humidity" rfl
      (by decide) (by decide) (by decide)⟩

/-- C8: `RoomController.update` with a recognised tag whose required field
is absent raises (a KeyError on the missing-key access), and the
controller — all three cached values included — is unchanged by the
failed call, since the error fires before any assignment. -/
theorem room_update_missing_field (rc : RoomController) (d : SensorData) :
    (d.sensor_type = some "temperature" → d.value = none →
      rc.update d = Except.error keyErrorValue ∧ rc.updatePost d = rc) ∧
    (d.sensor_type = some "pir" → d.occupied = none →
      rc.update d = Except.error keyErrorOccupied ∧ rc.updatePost d = rc) ∧
    (d.sensor_type = some "ldr" → d.value = none →
      rc.update d = Except.error keyErrorValue ∧ rc.updatePost d = rc) := by
  refine ⟨fun h1 h2 => ?_, fun h1 h2 => ?_, fun h1 h2 => ?_⟩ <;>
    constructor <;>
      simp [RoomController.update, RoomController.updatePost, h1, h2]

/-- Witness for C8 on a concrete controller: each recognised tag with the
required field absent gives a KeyError and leaves the controller as it
was. -/
theorem room_update_missing_field_check :
    ((RoomController.init "R").update { sensor_type := some "temperature" } =
        Except.error keyErrorValue ∧
      (RoomController.init "R").updatePost { sensor_type := some "temperature" } =
        RoomController.init "R") ∧
    ((RoomController.init "R").update { sensor_type := some "pir" } =
        Except.error keyErrorOccupied ∧
      (RoomController.init "R").updatePost { sensor_type := some "pir" } =
        RoomController.init "R") ∧
    ((RoomController.init "R").update { sensor_type := some "ldr" } =
        Except.error keyErrorValue ∧
      (RoomController.init "R").updatePost { sensor_type := some "ldr" } =
        RoomController.init "R") :=
  ⟨(room_update_missing_field (RoomController.init "R")
      { sensor_type := some "temperature" }).1 rfl rfl,
   (room_update_missing_field (RoomController.init "R")
      { sensor_type := some "pir" }).2.1 rfl rfl,
   (room_update_missing_field (RoomController.init "R")
      { sensor_type := some "ldr" }).2.2 rfl rfl⟩

/-- C9: a freshly constructed room has the cached defaults temp=20.0,
occupied=false, light=500 and both FSMs in OFF; delivering
Occupancy(true), Temperature(29.0), LightLevel(50) through `update` (all
three succeed) and then evaluating the FSMs on the cached values yields
AC state COOLING and light state ON. -/
theorem room_scenario :
    (RoomController.init "Living Room").current_temp = 20 ∧
    (RoomController.init "Living Room").is_occupied = false ∧
    (RoomController.init "Living Room").current_light_level = 500 ∧
    (RoomController.init "Living Room").ac = ACState.OFF ∧
    (RoomController.init "Living Room").lights = LightState.OFF ∧
    Except.map (fun rc : RoomController => (rc.evaluate.2.1, rc.evaluate.2.2))
        (Except.bind
          (Except.bind
            ((RoomController.init "Living Room").update
              { sensor_type := some "pir", occupied := some true })
            (fun rc =>
              rc.update { sensor_type := some "temperature", value := some 29 }))
          (fun rc => rc.update { sensor_type := some "ldr", value := some 50 })) =
      Except.ok (ACState.COOLING, LightState.ON) := by
  refine ⟨rfl, rfl, rfl, rfl, rfl, ?_⟩
  rfl

/-- C10: `RoomController.update` with a reading that has no sensor_type
key at all is a silent no-op: it raises no error and returns the
controller unchanged, because `get` yields None and None matches no
branch of the dispatch. -/
theorem room_update_missing_tag (rc : RoomController) (d : SensorData)
    (h : d.sensor_type = none) : rc.update d = Except.ok rc := by
  simp [RoomController.update, h]

/-- Witness for C10: the empty reading (no keys at all) delivered to a
fresh controller is accepted and changes nothing. -/
theorem room_update_missing_tag_check :
    (RoomController.init "R").update {} = Except.ok (RoomController.init "R") :=
  room_update_missing_tag (RoomController.init "R") {} rfl

end SmartHome
